import Mathlib

/-!
Shallow embedding of the FashionHub Django store (store/models.py,
store/views.py, store/admin_views.py, store/admin.py).

Database rows become records in lists; each Django view/action becomes a
pure function from a `StoreState` to a new `StoreState` (plus a success
flag or result).  Monetary amounts (`DecimalField` with two decimal
places) are modelled as `Nat` in hundredths of a currency unit; stock
counters (`PositiveIntegerField`) are `Nat`, so that the source pattern
`x -= q; if x < 0: x = 0` is exactly truncated subtraction on `Nat`.
Timestamps are `Nat` minutes.
-/

namespace FashionHub

/-- `Order.STATUS_CHOICES` from store/models.py. -/
inductive OrderStatus where
  | pending
  | confirmed
  | processing
  | packed
  | shipped
  | delivered
  | cancelled
deriving Repr, DecidableEq

/-- `Order.PAYMENT_CHOICES` from store/models.py. -/
inductive PaymentMethod where
  | cash_on_delivery
  | khalti
  | esewa
  | bank_transfer
deriving Repr, DecidableEq

/-- Row of the `Product` model: the fields the embedded views touch. -/
structure ProductR where
  id : Nat
  name : String
  price : Nat
  stock : Nat
deriving Repr, DecidableEq

/-- Row of the `Size` model. -/
structure SizeR where
  id : Nat
  name : String
deriving Repr, DecidableEq

/-- Row of the `ProductSize` through model (per-size stock partition). -/
structure ProductSizeR where
  product : Nat
  size : Nat
  stock : Nat
deriving Repr, DecidableEq

/-- Row of the `CartItem` model. -/
structure CartItemR where
  id : Nat
  cart : Nat
  product : Nat
  size : Option Nat
  quantity : Nat
deriving Repr, DecidableEq

/-- Row of the `Order` model: the fields the embedded views touch. -/
structure OrderR where
  id : Nat
  user : Option Nat
  total_amount : Nat
  status : OrderStatus
  payment_method : PaymentMethod
  payment_status : Bool
  cancellation_reason : Option String
  is_received : Bool
  received_at : Option Nat
  created_at : Nat
deriving Repr, DecidableEq

/-- Row of the `OrderItem` model: snapshot fields copied at creation. -/
structure OrderItemR where
  order : Nat
  product : Option Nat
  product_name : String
  size : Option Nat
  size_name : String
  price : Nat
  quantity : Nat
deriving Repr, DecidableEq

/-- The database state seen by the embedded views. -/
structure StoreState where
  products : List ProductR
  sizes : List SizeR
  productSizes : List ProductSizeR
  cartItems : List CartItemR
  orders : List OrderR
  orderItems : List OrderItemR
  nextOrderId : Nat
  nextCartItemId : Nat
deriving Repr, DecidableEq

/-! ### Row lookups and keyed updates -/

def findProduct (s : StoreState) (pid : Nat) : Option ProductR :=
  s.products.find? (fun p => p.id == pid)

def findSize (s : StoreState) (szId : Nat) : Option SizeR :=
  s.sizes.find? (fun sz => sz.id == szId)

def findPS (s : StoreState) (pid szId : Nat) : Option ProductSizeR :=
  s.productSizes.find? (fun ps => ps.product == pid && ps.size == szId)

def findOrder (s : StoreState) (oid : Nat) : Option OrderR :=
  s.orders.find? (fun o => o.id == oid)

def findCartItemById (s : StoreState) (ciid : Nat) : Option CartItemR :=
  s.cartItems.find? (fun ci => ci.id == ciid)

def findCartItem (s : StoreState) (cartId pid : Nat) (sz : Option Nat) :
    Option CartItemR :=
  s.cartItems.find? (fun ci =>
    ci.cart == cartId && ci.product == pid && ci.size == sz)

def updProduct (s : StoreState) (pid : Nat) (f : ProductR → ProductR) :
    StoreState :=
  { s with products := s.products.map (fun p => if p.id == pid then f p else p) }

def updPS (s : StoreState) (pid szId : Nat) (f : ProductSizeR → ProductSizeR) :
    StoreState :=
  { s with productSizes :=
      s.productSizes.map (fun ps =>
        if ps.product == pid && ps.size == szId then f ps else ps) }

def updOrder (s : StoreState) (oid : Nat) (f : OrderR → OrderR) : StoreState :=
  { s with orders := s.orders.map (fun o => if o.id == oid then f o else o) }

def updCartItem (s : StoreState) (ciid : Nat) (f : CartItemR → CartItemR) :
    StoreState :=
  { s with cartItems :=
      s.cartItems.map (fun ci => if ci.id == ciid then f ci else ci) }

/-- `Product.total_stock`: sum of the per-size stocks of the product. -/
def total_stock (s : StoreState) (pid : Nat) : Nat :=
  (s.productSizes.filter (fun ps => ps.product == pid)).foldl
    (fun acc ps => acc + ps.stock) 0

/-- `product.sizes.exists()`: the M2M through `ProductSize` is nonempty. -/
def hasSizes (s : StoreState) (pid : Nat) : Bool :=
  s.productSizes.any (fun ps => ps.product == pid)

/-- `order.items.all()`. -/
def itemsOfOrder (s : StoreState) (oid : Nat) : List OrderItemR :=
  s.orderItems.filter (fun it => it.order == oid)

/-- `cart.items.all()`. -/
def cartItemsOf (s : StoreState) (cartId : Nat) : List CartItemR :=
  s.cartItems.filter (fun ci => ci.cart == cartId)

/-! ### Order creation (`checkout` view, store/views.py lines 406-586) -/

/-- One purchase line: a cart item's (product, size, quantity) triple, or
the `buy_now_product` session dict `{product_id, size_id, quantity}`. -/
structure Line where
  product_id : Nat
  size_id : Option Nat
  quantity : Nat
deriving Repr, DecidableEq

inductive Err where
  | emptyCart
  | notFound
deriving Repr, DecidableEq

inductive CheckoutRes where
  | ok (orderId : Nat)
  | err (e : Err)
deriving Repr, DecidableEq

/-- Total price of the lines: `sum(product.price * quantity)`
(`cart.total_price` resp. `product.price * buy_now_product.quantity`). -/
def totalOf (s : StoreState) (lines : List Line) : Option Nat :=
  lines.foldl (fun acc l =>
    match acc, findProduct s l.product_id with
    | some t, some p => some (t + p.price * l.quantity)
    | _, _ => none) (some 0)

def addOrderItem (s : StoreState) (it : OrderItemR) : StoreState :=
  { s with orderItems := s.orderItems ++ [it] }

/-- One iteration of the order-item loop in `checkout`: create the
`OrderItem` with snapshot fields copied from the product, then reduce
stock — size-specific stock when the line has a size, else the aggregate
`product.stock`; the source writes `stock -= q; if stock < 0: stock = 0`,
which is `Nat` truncated subtraction. -/
def processLine (s : StoreState) (oid : Nat) (l : Line) :
    StoreState × Option Err :=
  match findProduct s l.product_id with
  | none => (s, some Err.notFound)
  | some p =>
    match l.size_id with
    | some szId =>
      match findSize s szId with
      | none => (s, some Err.notFound)
      | some sz =>
        let s1 := addOrderItem s
          { order := oid, product := some p.id, product_name := p.name,
            size := some szId, size_name := sz.name,
            price := p.price, quantity := l.quantity }
        match findPS s1 p.id szId with
        | none => (s1, some Err.notFound)
        | some _ =>
          (updPS s1 p.id szId (fun ps => { ps with stock := ps.stock - l.quantity }),
           none)
    | none =>
      let s1 := addOrderItem s
        { order := oid, product := some p.id, product_name := p.name,
          size := none, size_name := "",
          price := p.price, quantity := l.quantity }
      (updProduct s1 p.id (fun q => { q with stock := q.stock - l.quantity }),
       none)

def processLines (s : StoreState) (oid : Nat) : List Line → StoreState × Option Err
  | [] => (s, none)
  | l :: ls =>
    match processLine s oid l with
    | (s1, some e) => (s1, some e)
    | (s1, none) => processLines s1 oid ls

/-- The `checkout` view on POST: build the lines from the `buy_now_product`
session entry when present, else from the cart; create the `Order`
(status `pending`, `payment_status=False`), create the order items and
reserve stock line by line, and finally clear the cart — but only when
the order was built from the cart itself. -/
def checkout (s : StoreState) (uid : Nat) (cartId : Nat)
    (buyNow : Option Line) (pm : PaymentMethod) (now : Nat) :
    StoreState × CheckoutRes :=
  let lines : List Line := match buyNow with
    | some bn => [bn]
    | none => (cartItemsOf s cartId).map
        (fun ci => { product_id := ci.product, size_id := ci.size,
                     quantity := ci.quantity })
  if lines.isEmpty then (s, CheckoutRes.err Err.emptyCart)
  else
    match totalOf s lines with
    | none => (s, CheckoutRes.err Err.notFound)
    | some total =>
      let oid := s.nextOrderId
      let s0 : StoreState :=
        { s with
          orders := s.orders ++
            [{ id := oid, user := some uid, total_amount := total,
               status := OrderStatus.pending, payment_method := pm,
               payment_status := false, cancellation_reason := none,
               is_received := false, received_at := none, created_at := now }],
          nextOrderId := oid + 1 }
      match processLines s0 oid lines with
      | (s1, some e) => (s1, CheckoutRes.err e)
      | (s1, none) =>
        let s2 := match buyNow with
          | some _ => s1
          | none =>
            { s1 with cartItems :=
                s1.cartItems.filter (fun ci => ci.cart != cartId) }
        (s2, CheckoutRes.ok oid)

/-! ### Cancellation and stock release -/

/-- The inventory-return loop shared by `cancel_order`, `khalti_callback`
and the `pre_delete` signal: `item.product.stock += item.quantity` for
every line whose product still exists — the aggregate counter, with no
size handling. -/
def restoreStep (s : StoreState) (it : OrderItemR) : StoreState :=
  match it.product with
  | some pid =>
    if (findProduct s pid).isSome then
      updProduct s pid (fun p => { p with stock := p.stock + it.quantity })
    else s
  | none => s

def restoreItems : StoreState → List OrderItemR → StoreState
  | s, [] => s
  | s, it :: rest => restoreItems (restoreStep s it) rest

/-- The quantity an order's item list holds against product `pid`. -/
def qtySum (pid : Nat) (items : List OrderItemR) : Nat :=
  ((items.filter (fun it => it.product == some pid)).map
    (fun it => it.quantity)).sum

/-- `Order.can_cancel` (store/models.py): not already
cancelled/shipped/delivered, and at most 30 minutes since creation. -/
def can_cancel (now : Nat) (o : OrderR) : Bool :=
  if o.status == OrderStatus.cancelled || o.status == OrderStatus.shipped ||
     o.status == OrderStatus.delivered then
    false
  else
    now - o.created_at ≤ 30

/-- The `cancel_order` view on POST: when `order.can_cancel`, set status
to cancelled with reason, then return every line's quantity to the
aggregate product stock; otherwise show an error and change nothing. -/
def cancel_order (s : StoreState) (now : Nat) (oid : Nat) :
    StoreState × Bool :=
  match findOrder s oid with
  | none => (s, false)
  | some o =>
    if can_cancel now o then
      let s1 := updOrder s oid (fun o2 =>
        { o2 with status := OrderStatus.cancelled,
                  cancellation_reason := some "Cancelled by user" })
      (restoreItems s1 (itemsOfOrder s1 oid), true)
    else (s, false)

/-- Administrative hard delete of an order: the `pre_delete` signal
`notify_user_on_order_delete` runs first (it returns the items to the
aggregate stock when the order has a user and is not already cancelled),
then the order row and its items are removed. -/
def hardDeleteOrder (s : StoreState) (oid : Nat) : StoreState :=
  match findOrder s oid with
  | none => s
  | some o =>
    let s1 :=
      if o.user.isSome && o.status != OrderStatus.cancelled then
        restoreItems s (itemsOfOrder s oid)
      else s
    { s1 with
      orders := s1.orders.filter (fun o2 => o2.id != oid),
      orderItems := s1.orderItems.filter (fun it => it.order != oid) }

/-! ### Khalti payment callback (`khalti_callback`, store/views.py) -/

/-- `verification_response['data']` fields the callback inspects. -/
structure KhaltiData where
  status : String
  total_amount : Nat
deriving Repr, DecidableEq

/-- Outcome of `KhaltiPayment.verify_payment`. -/
inductive KhaltiVerification where
  | success (data : KhaltiData)
  | failure
deriving Repr, DecidableEq

/-- Core of the `khalti_callback` view, given a valid payment session for
order `oid`, the gateway callback status and the verification outcome.
Branches exactly as the source: on verified completed payment with
matching amount, mark paid and move to `processing`; on a mismatch,
cancel with reason and restore stock; on a verification error, cancel
with reason (the source restores no stock in this branch); on any other
callback status, cancel with reason and restore stock. -/
def khalti_callback (s : StoreState) (oid : Nat) (cbStatus : String)
    (ver : KhaltiVerification) : StoreState :=
  match findOrder s oid with
  | none => s
  | some o =>
    if cbStatus == "Completed" then
      match ver with
      | KhaltiVerification.success data =>
        if data.status == "Completed" && data.total_amount == o.total_amount * 100 then
          updOrder s oid (fun o2 =>
            { o2 with payment_status := true, status := OrderStatus.processing })
        else
          let s1 := updOrder s oid (fun o2 =>
            { o2 with status := OrderStatus.cancelled,
                      cancellation_reason := some "Payment verification failed" })
          restoreItems s1 (itemsOfOrder s1 oid)
      | KhaltiVerification.failure =>
        updOrder s oid (fun o2 =>
          { o2 with status := OrderStatus.cancelled,
                    cancellation_reason := some "Payment verification error" })
    else
      let s1 := updOrder s oid (fun o2 =>
        { o2 with status := OrderStatus.cancelled,
                  cancellation_reason := some "Payment cancelled by user" })
      restoreItems s1 (itemsOfOrder s1 oid)

/-! ### Admin order management (store/admin_views.py, store/admin.py) -/

/-- The `valid_transitions` table of `admin_order_detail`. -/
def valid_transitions : OrderStatus → List OrderStatus
  | OrderStatus.pending => [OrderStatus.confirmed, OrderStatus.cancelled]
  | OrderStatus.confirmed => [OrderStatus.processing, OrderStatus.cancelled]
  | OrderStatus.processing => [OrderStatus.packed, OrderStatus.cancelled]
  | OrderStatus.packed => [OrderStatus.shipped, OrderStatus.cancelled]
  | OrderStatus.shipped => [OrderStatus.delivered, OrderStatus.cancelled]
  | OrderStatus.delivered => []
  | OrderStatus.cancelled => []

/-- The status-change branch of `admin_order_detail` on POST: apply the
requested status only when it differs from the current one and the
`valid_transitions` table allows it; otherwise report an invalid
transition and change nothing.  Returns `true` on an applied change. -/
def admin_transition (s : StoreState) (oid : Nat) (new_status : OrderStatus) :
    StoreState × Bool :=
  match findOrder s oid with
  | none => (s, false)
  | some o =>
    if new_status != o.status &&
       (valid_transitions o.status).contains new_status then
      (updOrder s oid (fun o2 => { o2 with status := new_status }), true)
    else (s, false)

/-- `OrderAdmin.mark_as_cancelled` restricted to one order of the
queryset: the action excludes orders already delivered or cancelled,
sets the rest to cancelled and returns their items to the aggregate
product stock. -/
def mark_as_cancelled (s : StoreState) (oid : Nat) : StoreState :=
  match findOrder s oid with
  | none => s
  | some o =>
    if o.status == OrderStatus.delivered || o.status == OrderStatus.cancelled then
      s
    else
      let s1 := updOrder s oid (fun o2 => { o2 with status := OrderStatus.cancelled })
      restoreItems s1 (itemsOfOrder s1 oid)

/-- `OrderAdmin.mark_as_paid` as it acts on one order row:
`queryset.update(payment_status=True)` writes only the flag. -/
def mark_as_paid (o : OrderR) : OrderR :=
  { o with payment_status := true }

/-- The `payment_received` branch of `admin_order_detail`: set the
payment flag only for a delivered, still-unpaid cash-on-delivery order;
otherwise report an error and change nothing. -/
def payment_received (s : StoreState) (oid : Nat) : StoreState × Bool :=
  match findOrder s oid with
  | none => (s, false)
  | some o =>
    if o.payment_method == PaymentMethod.cash_on_delivery &&
       o.status == OrderStatus.delivered && !o.payment_status then
      (updOrder s oid (fun o2 => { o2 with payment_status := true }), true)
    else (s, false)

/-! ### Receipt confirmation (`confirm_order_receipt`, store/views.py) -/

/-- The `confirm_order_receipt` view on POST: only when the order is
delivered and not yet received, set the flag and the timestamp;
otherwise report that the order cannot be marked as received. -/
def confirm_order_receipt (s : StoreState) (now : Nat) (oid : Nat) :
    StoreState × Bool :=
  match findOrder s oid with
  | none => (s, false)
  | some o =>
    if o.status == OrderStatus.delivered && !o.is_received then
      (updOrder s oid (fun o2 =>
        { o2 with is_received := true, received_at := some now }), true)
    else (s, false)

/-! ### Cart operations (store/views.py) -/

/-- Tail of `add_to_cart` once the available stock is known:
check the requested quantity, then `get_or_create` on the key
(cart, product, size) — merging into the existing line's quantity when
the key already exists, re-checking the merged quantity against the
available stock. -/
def addWithAvail (s : StoreState) (cartId pid : Nat) (sz : Option Nat)
    (quantity available : Nat) : StoreState × Bool :=
  if quantity > available then (s, false)
  else
    match findCartItem s cartId pid sz with
    | none =>
      ({ s with
         cartItems := s.cartItems ++
           [{ id := s.nextCartItemId, cart := cartId, product := pid,
              size := sz, quantity := quantity }],
         nextCartItemId := s.nextCartItemId + 1 }, true)
    | some ci =>
      let new_quantity := ci.quantity + quantity
      if new_quantity > available then (s, false)
      else (updCartItem s ci.id (fun c => { c with quantity := new_quantity }), true)

/-- The `add_to_cart` view on POST: quantity is `max(1, requested)`;
with a size, the size's stock partition must exist and be positive and
is the available stock; without a size, a product that has sizes demands
a size selection, else the available stock is `product.total_stock`. -/
def add_to_cart (s : StoreState) (cartId pid : Nat) (size_id : Option Nat)
    (qtyReq : Nat) : StoreState × Bool :=
  match findProduct s pid with
  | none => (s, false)
  | some _ =>
    let quantity := max 1 qtyReq
    match size_id with
    | some szId =>
      match findSize s szId with
      | none => (s, false)
      | some _ =>
        match findPS s pid szId with
        | none => (s, false)
        | some ps =>
          if ps.stock == 0 then (s, false)
          else addWithAvail s cartId pid (some szId) quantity ps.stock
    | none =>
      if hasSizes s pid then (s, false)
      else addWithAvail s cartId pid none quantity (total_stock s pid)

/-- The `update_cart` view on POST: quantity is `max(1, requested)`,
then clamped down to the available stock (the size partition when the
line has a size, else `product.total_stock`) — the clamp writes the
available stock itself, even when that is zero. -/
def update_cart (s : StoreState) (item_id : Nat) (qtyReq : Nat) :
    StoreState × Bool :=
  match findCartItemById s item_id with
  | none => (s, false)
  | some ci =>
    let quantity := max 1 qtyReq
    match ci.size with
    | some szId =>
      match findPS s ci.product szId with
      | none => (s, false)
      | some ps =>
        let q := if quantity > ps.stock then ps.stock else quantity
        (updCartItem s item_id (fun c => { c with quantity := q }), true)
    | none =>
      let available := total_stock s ci.product
      let q := if quantity > available then available else quantity
      (updCartItem s item_id (fun c => { c with quantity := q }), true)

/-- The `remove_from_cart` view on POST: delete the line. -/
def remove_from_cart (s : StoreState) (item_id : Nat) : StoreState :=
  { s with cartItems := s.cartItems.filter (fun ci => ci.id != item_id) }

/-- The `CartItem` constraint `unique_together = [cart, product, size]`:
at most one line per (cart, product, size) tuple. -/
def cartKeysUnique (s : StoreState) : Prop :=
  s.cartItems.Pairwise (fun a b =>
    ¬(a.cart = b.cart ∧ a.product = b.product ∧ a.size = b.size))

/-- Every cart line has quantity at least 1. -/
def cartQuantitiesPos (s : StoreState) : Prop :=
  ∀ ci ∈ s.cartItems, 1 ≤ ci.quantity

/-! ### Product price update (`Product.save`, store/models.py) -/

/-- Saving a product with a new price: `Product.save` floors the price
at `Decimal('0.01')`, i.e. one hundredth. -/
def product_save_price (s : StoreState) (pid : Nat) (newPrice : Nat) :
    StoreState :=
  updProduct s pid (fun p =>
    { p with price := if newPrice < 1 then 1 else newPrice })

/-! ### Concrete scenario states -/

/-- A product with no size partitioning, stock 5, and two carts holding
it: cart 1 wants quantity 5 and cart 2 wants quantity 1. -/
def stateA : StoreState :=
  { products := [{ id := 1, name := "P", price := 500, stock := 5 }],
    sizes := [], productSizes := [],
    cartItems := [{ id := 10, cart := 1, product := 1, size := none, quantity := 5 },
                  { id := 11, cart := 2, product := 1, size := none, quantity := 1 }],
    orders := [], orderItems := [], nextOrderId := 1, nextCartItemId := 20 }

/-- A pending order (id 7) holding 2 units of product 1 in size 2 ("M");
the size partition has stock 3 and the aggregate product stock is 10. -/
def stateB : StoreState :=
  { products := [{ id := 1, name := "P", price := 500, stock := 10 }],
    sizes := [{ id := 2, name := "M" }],
    productSizes := [{ product := 1, size := 2, stock := 3 }],
    cartItems := [],
    orders := [{ id := 7, user := some 1, total_amount := 1000,
                 status := OrderStatus.pending,
                 payment_method := PaymentMethod.cash_on_delivery,
                 payment_status := false, cancellation_reason := none,
                 is_received := false, received_at := none, created_at := 0 }],
    orderItems := [{ order := 7, product := some 1, product_name := "P",
                     size := some 2, size_name := "M", price := 500, quantity := 2 }],
    nextOrderId := 8, nextCartItemId := 1 }

/-- A pending Khalti order (id 7) holding 2 reserved units of product 1,
whose remaining stock is 0. -/
def stateC : StoreState :=
  { products := [{ id := 1, name := "P", price := 500, stock := 0 }],
    sizes := [], productSizes := [], cartItems := [],
    orders := [{ id := 7, user := some 1, total_amount := 1000,
                 status := OrderStatus.pending,
                 payment_method := PaymentMethod.khalti,
                 payment_status := false, cancellation_reason := none,
                 is_received := false, received_at := none, created_at := 0 }],
    orderItems := [{ order := 7, product := some 1, product_name := "P",
                     size := none, size_name := "", price := 500, quantity := 2 }],
    nextOrderId := 8, nextCartItemId := 1 }

/-- A product with stock 5 and a cart holding 2 units, about to be
bought through Khalti. -/
def stateD : StoreState :=
  { products := [{ id := 1, name := "P", price := 500, stock := 5 }],
    sizes := [], productSizes := [],
    cartItems := [{ id := 10, cart := 1, product := 1, size := none, quantity := 2 }],
    orders := [], orderItems := [], nextOrderId := 1, nextCartItemId := 20 }

/-- The Khalti order created from `stateD`, cancelled by the customer
10 minutes later, while the payment session is still open. -/
def stateD2 : StoreState :=
  (cancel_order (checkout stateD 1 1 none PaymentMethod.khalti 0).1 10 1).1

/-- A cart line of 2 units of product 1 in size 2, whose size partition
is meanwhile sold out (stock 0). -/
def stateE : StoreState :=
  { products := [{ id := 1, name := "P", price := 500, stock := 9 }],
    sizes := [{ id := 2, name := "M" }],
    productSizes := [{ product := 1, size := 2, stock := 0 }],
    cartItems := [{ id := 5, cart := 1, product := 1, size := some 2, quantity := 2 }],
    orders := [], orderItems := [], nextOrderId := 1, nextCartItemId := 6 }

/-- A delivered, not yet received cash-on-delivery order (id 3). -/
def stateF : StoreState :=
  { products := [], sizes := [], productSizes := [], cartItems := [],
    orders := [{ id := 3, user := some 1, total_amount := 700,
                 status := OrderStatus.delivered,
                 payment_method := PaymentMethod.cash_on_delivery,
                 payment_status := false, cancellation_reason := none,
                 is_received := false, received_at := none, created_at := 0 }],
    orderItems := [], nextOrderId := 4, nextCartItemId := 1 }

/-! ### Helper lemmas on keyed lookups and updates -/

theorem find_update_pos {α : Type} (p : α → Bool) (f : α → α)
    (hf : ∀ a, p (f a) = p a) :
    ∀ l : List α,
      (l.map (fun a => if p a then f a else a)).find? p = (l.find? p).map f
  | [] => rfl
  | a :: l => by
    by_cases h : p a
    · simp [List.find?_cons_of_pos, h, hf]
    · simp [List.find?_cons_of_neg, h, find_update_pos p f hf l]

theorem find_update_other {α : Type} (p q : α → Bool) (f : α → α)
    (hq : ∀ a, q (f a) = q a) (hpq : ∀ a, p a = true → q a = false) :
    ∀ l : List α,
      (l.map (fun a => if p a then f a else a)).find? q = l.find? q
  | [] => rfl
  | a :: l => by
    by_cases h : p a
    · have hqa : q a = false := hpq a h
      have : q (f a) = false := by rw [hq]; exact hqa
      simp [h, List.find?_cons_of_neg, this, hqa, find_update_other p q f hq hpq l]
    · by_cases h2 : q a
      · simp [h, List.find?_cons_of_pos, h2]
      · simp [h, List.find?_cons_of_neg, h2, find_update_other p q f hq hpq l]

theorem find_append_right {α : Type} (p : α → Bool) (l1 : List α) (x : α)
    (h1 : l1.find? p = none) (hx : p x = true) :
    (l1 ++ [x]).find? p = some x := by
  induction l1 with
  | nil => simp [List.find?_cons_of_pos, hx]
  | cons a l ih =>
    rw [List.find?_eq_none] at h1
    have ha : p a = false := by
      have := h1 a (by simp)
      simpa using this
    have hl : l.find? p = none := by
      rw [List.find?_eq_none]
      intro b hb
      exact h1 b (by simp [hb])
    simpa [List.find?_cons_of_neg, ha] using ih hl

theorem restoreStep_frame (s : StoreState) (it : OrderItemR) :
    (restoreStep s it).orders = s.orders ∧
    (restoreStep s it).orderItems = s.orderItems ∧
    (restoreStep s it).cartItems = s.cartItems ∧
    (restoreStep s it).productSizes = s.productSizes := by
  unfold restoreStep
  cases it.product with
  | none => exact ⟨rfl, rfl, rfl, rfl⟩
  | some pid =>
    by_cases h : (findProduct s pid).isSome
    · simp [h, updProduct]
    · simp [h]

theorem restoreItems_frame :
    ∀ (items : List OrderItemR) (s : StoreState),
      (restoreItems s items).orders = s.orders ∧
      (restoreItems s items).orderItems = s.orderItems ∧
      (restoreItems s items).cartItems = s.cartItems ∧
      (restoreItems s items).productSizes = s.productSizes
  | [], _ => ⟨rfl, rfl, rfl, rfl⟩
  | it :: rest, s => by
    have hs := restoreStep_frame s it
    have ih := restoreItems_frame rest (restoreStep s it)
    exact ⟨ih.1.trans hs.1, ih.2.1.trans hs.2.1,
           ih.2.2.1.trans hs.2.2.1, ih.2.2.2.trans hs.2.2.2⟩

theorem findProduct_updProduct_self (s : StoreState) (pid : Nat)
    (f : ProductR → ProductR) (hf : ∀ p, (f p).id = p.id) :
    findProduct (updProduct s pid f) pid = (findProduct s pid).map f := by
  unfold findProduct updProduct
  exact find_update_pos (fun p => p.id == pid) f (fun a => by simp [hf]) s.products

theorem findProduct_updProduct_ne (s : StoreState) (pid pid2 : Nat)
    (f : ProductR → ProductR) (hf : ∀ p, (f p).id = p.id) (hne : pid2 ≠ pid) :
    findProduct (updProduct s pid2 f) pid = findProduct s pid := by
  unfold findProduct updProduct
  exact find_update_other (fun p => p.id == pid2) (fun p => p.id == pid) f
    (fun a => by simp [hf])
    (fun a ha => by
      have : a.id = pid2 := by simpa using ha
      simp [this, hne])
    s.products

/-- `restoreItems` adds exactly the per-product total quantity of the
item list to the aggregate stock of each product still present. -/
theorem restoreItems_stock :
    ∀ (items : List OrderItemR) (s : StoreState) (pid : Nat) (p : ProductR),
      findProduct s pid = some p →
      findProduct (restoreItems s items) pid =
        some { p with stock := p.stock + qtySum pid items }
  | [], s, pid, p, hp => by
    simpa [restoreItems, qtySum] using hp
  | it :: rest, s, pid, p, hp => by
    show findProduct (restoreItems (restoreStep s it) rest) pid = _
    cases hip : it.product with
    | none =>
      have hstep : restoreStep s it = s := by unfold restoreStep; rw [hip]
      rw [hstep]
      have := restoreItems_stock rest s pid p hp
      simpa [qtySum, hip] using this
    | some pid2 =>
      by_cases h2 : pid2 = pid
      · subst h2
        have hstep : restoreStep s it =
            updProduct s pid2 (fun q => { q with stock := q.stock + it.quantity }) := by
          unfold restoreStep
          rw [hip]
          simp [hp]
        rw [hstep]
        have hfind : findProduct
            (updProduct s pid2 (fun q => { q with stock := q.stock + it.quantity }))
            pid2 = some { p with stock := p.stock + it.quantity } := by
          rw [findProduct_updProduct_self s pid2
            (fun q => { q with stock := q.stock + it.quantity }) (fun q => rfl), hp]
          rfl
        have := restoreItems_stock rest _ pid2
          { p with stock := p.stock + it.quantity } hfind
        rw [this]
        simp [qtySum, hip, Nat.add_assoc]
      · have hrest :
            findProduct (restoreStep s it) pid = some p := by
          unfold restoreStep
          rw [hip]
          by_cases h3 : (findProduct s pid2).isSome
          · simp only [h3, if_pos]
            rw [findProduct_updProduct_ne s pid pid2
              (fun q => { q with stock := q.stock + it.quantity }) (fun q => rfl) h2]
            exact hp
          · simp only [h3, if_neg]
            exact hp
        have := restoreItems_stock rest _ pid p hrest
        rw [this]
        simp [qtySum, hip, h2]

theorem findOrder_updOrder_self (s : StoreState) (oid : Nat)
    (f : OrderR → OrderR) (hf : ∀ o, (f o).id = o.id) :
    findOrder (updOrder s oid f) oid = (findOrder s oid).map f := by
  unfold findOrder updOrder
  exact find_update_pos (fun o => o.id == oid) f (fun a => by simp [hf]) s.orders

theorem processLine_frame (s : StoreState) (oid : Nat) (l : Line) :
    (processLine s oid l).1.cartItems = s.cartItems ∧
    (processLine s oid l).1.orders = s.orders := by
  unfold processLine
  split
  · exact ⟨rfl, rfl⟩
  · split
    · split
      · exact ⟨rfl, rfl⟩
      · dsimp only
        split
        · exact ⟨rfl, rfl⟩
        · exact ⟨rfl, rfl⟩
    · exact ⟨rfl, rfl⟩

theorem processLines_frame :
    ∀ (ls : List Line) (s : StoreState) (oid : Nat),
      (processLines s oid ls).1.cartItems = s.cartItems ∧
      (processLines s oid ls).1.orders = s.orders
  | [], _, _ => ⟨rfl, rfl⟩
  | l :: ls, s, oid => by
    unfold processLines
    cases hpl : processLine s oid l with
    | mk s1 e =>
      have hf := processLine_frame s oid l
      rw [hpl] at hf
      cases e with
      | some e => simpa using hf
      | none =>
        have ih := processLines_frame ls s1 oid
        exact ⟨ih.1.trans hf.1, ih.2.trans hf.2⟩

theorem processLines_frame_eq (ls : List Line) (s : StoreState) (oid : Nat)
    (s1 : StoreState) (e : Option Err) (h : processLines s oid ls = (s1, e)) :
    s1.cartItems = s.cartItems ∧ s1.orders = s.orders := by
  have hf := processLines_frame ls s oid
  rw [h] at hf
  exact hf

theorem processLines_single_nosize (s : StoreState) (oid pid qty : Nat)
    (p : ProductR) (hp : findProduct s pid = some p) :
    processLines s oid [{ product_id := pid, size_id := none, quantity := qty }] =
      (updProduct (addOrderItem s
        { order := oid, product := some p.id, product_name := p.name,
          size := none, size_name := "", price := p.price, quantity := qty })
        p.id (fun q => { q with stock := q.stock - qty }), none) := by
  show (match processLine s oid
      { product_id := pid, size_id := none, quantity := qty } with
    | (s1, some e) => (s1, some e)
    | (s1, none) => processLines s1 oid []) = _
  unfold processLine
  rw [hp]
  dsimp only
  unfold processLines
  rfl

/-- Full characterization of `checkout` on a cart holding one line of a
product without size partitioning: the order and its snapshot item are
appended, the aggregate stock is decremented (truncated at zero), and
the cart's lines are cleared. -/
theorem checkout_single_nosize
    (s : StoreState) (uid cartId ciid pid qty now : Nat) (pm : PaymentMethod)
    (p : ProductR) (hp : findProduct s pid = some p)
    (hcart : cartItemsOf s cartId =
      [{ id := ciid, cart := cartId, product := pid, size := none, quantity := qty }]) :
    checkout s uid cartId none pm now =
      ({ products := s.products.map
           (fun q => if q.id == p.id then { q with stock := q.stock - qty } else q),
         sizes := s.sizes,
         productSizes := s.productSizes,
         cartItems := s.cartItems.filter (fun ci => ci.cart != cartId),
         orders := s.orders ++
           [{ id := s.nextOrderId, user := some uid,
              total_amount := 0 + p.price * qty,
              status := OrderStatus.pending, payment_method := pm,
              payment_status := false, cancellation_reason := none,
              is_received := false, received_at := none, created_at := now }],
         orderItems := s.orderItems ++
           [{ order := s.nextOrderId, product := some p.id,
              product_name := p.name, size := none, size_name := "",
              price := p.price, quantity := qty }],
         nextOrderId := s.nextOrderId + 1,
         nextCartItemId := s.nextCartItemId },
       CheckoutRes.ok s.nextOrderId) := by
  unfold checkout
  rw [hcart]
  dsimp only [List.map, List.isEmpty]
  have htot : totalOf s [{ product_id := pid, size_id := none, quantity := qty }] =
      some (0 + p.price * qty) := by
    unfold totalOf
    dsimp only [List.foldl]
    rw [hp]
  rw [htot]
  dsimp only
  have hp0 : findProduct
      { products := s.products, sizes := s.sizes, productSizes := s.productSizes,
        cartItems := s.cartItems,
        orders := s.orders ++
          [{ id := s.nextOrderId, user := some uid, total_amount := 0 + p.price * qty,
             status := OrderStatus.pending, payment_method := pm, payment_status := false,
             cancellation_reason := none, is_received := false, received_at := none,
             created_at := now }],
        orderItems := s.orderItems, nextOrderId := s.nextOrderId + 1,
        nextCartItemId := s.nextCartItemId } pid = some p := hp
  rw [processLines_single_nosize _ s.nextOrderId pid qty p hp0]
  rfl

theorem cartKeysUnique_map (s : StoreState) (f : CartItemR → CartItemR)
    (hf : ∀ a, (f a).cart = a.cart ∧ (f a).product = a.product ∧ (f a).size = a.size)
    (h : cartKeysUnique s) :
    cartKeysUnique { s with cartItems := s.cartItems.map f } := by
  unfold cartKeysUnique at h ⊢
  dsimp only
  rw [List.pairwise_map]
  refine h.imp ?_
  intro a b hab hcontra
  apply hab
  refine ⟨?_, ?_, ?_⟩
  · rw [← (hf a).1, ← (hf b).1]; exact hcontra.1
  · rw [← (hf a).2.1, ← (hf b).2.1]; exact hcontra.2.1
  · rw [← (hf a).2.2, ← (hf b).2.2]; exact hcontra.2.2

theorem cartKeysUnique_updCartItem (s : StoreState) (ciid : Nat)
    (f : CartItemR → CartItemR)
    (hf : ∀ a, (f a).cart = a.cart ∧ (f a).product = a.product ∧ (f a).size = a.size)
    (h : cartKeysUnique s) : cartKeysUnique (updCartItem s ciid f) := by
  unfold updCartItem
  apply cartKeysUnique_map _ _ _ h
  intro a
  by_cases ha : (a.id == ciid) = true
  · simp only [ha, if_true]
    exact hf a
  · simp only [ha, if_false]
    exact ⟨rfl, rfl, rfl⟩

theorem cartKeysUnique_filter (s : StoreState) (g : CartItemR → Bool)
    (h : cartKeysUnique s) :
    cartKeysUnique { s with cartItems := s.cartItems.filter g } :=
  List.Pairwise.sublist (List.filter_sublist _) h

theorem cartKeysUnique_append (s : StoreState) (x : CartItemR)
    (hx : findCartItem s x.cart x.product x.size = none)
    (h : cartKeysUnique s) :
    cartKeysUnique { s with cartItems := s.cartItems ++ [x] } := by
  unfold cartKeysUnique at h ⊢
  dsimp only
  rw [List.pairwise_append]
  refine ⟨h, List.pairwise_singleton _ _, ?_⟩
  intro a ha b hb
  have hb2 : b = x := by simpa using hb
  subst hb2
  unfold findCartItem at hx
  rw [List.find?_eq_none] at hx
  have hna := hx a ha
  intro hcontra
  apply hna
  simp [hcontra.1, hcontra.2.1, hcontra.2.2]

theorem addWithAvail_unique (s : StoreState) (cartId pid : Nat)
    (sz : Option Nat) (quantity available : Nat) (h : cartKeysUnique s) :
    cartKeysUnique (addWithAvail s cartId pid sz quantity available).1 := by
  unfold addWithAvail
  split
  · exact h
  · split
    · rename_i hfind
      exact cartKeysUnique_append s
        { id := s.nextCartItemId, cart := cartId, product := pid,
          size := sz, quantity := quantity } hfind h
    · dsimp only
      split
      · exact h
      · exact cartKeysUnique_updCartItem s _ _ (fun a => ⟨rfl, rfl, rfl⟩) h

theorem add_to_cart_unique (s : StoreState) (cartId pid qtyReq : Nat)
    (sz : Option Nat) (h : cartKeysUnique s) :
    cartKeysUnique (add_to_cart s cartId pid sz qtyReq).1 := by
  unfold add_to_cart
  split
  · exact h
  · split
    · split
      · exact h
      · split
        · exact h
        · split
          · exact h
          · exact addWithAvail_unique _ _ _ _ _ _ h
    · split
      · exact h
      · exact addWithAvail_unique _ _ _ _ _ _ h

theorem update_cart_unique (s : StoreState) (item_id qtyReq : Nat)
    (h : cartKeysUnique s) :
    cartKeysUnique (update_cart s item_id qtyReq).1 := by
  unfold update_cart
  split
  · exact h
  · split
    · split
      · exact h
      · exact cartKeysUnique_updCartItem s _ _ (fun a => ⟨rfl, rfl, rfl⟩) h
    · exact cartKeysUnique_updCartItem s _ _ (fun a => ⟨rfl, rfl, rfl⟩) h

theorem remove_from_cart_unique (s : StoreState) (item_id : Nat)
    (h : cartKeysUnique s) :
    cartKeysUnique (remove_from_cart s item_id) :=
  cartKeysUnique_filter s _ h

theorem addWithAvail_pos (s : StoreState) (cartId pid : Nat)
    (sz : Option Nat) (qtyReq available : Nat) (h : cartQuantitiesPos s) :
    cartQuantitiesPos (addWithAvail s cartId pid sz (max 1 qtyReq) available).1 := by
  unfold addWithAvail
  split
  · exact h
  · split
    · intro ci hci
      rcases List.mem_append.mp hci with hin | hnew
      · exact h ci hin
      · rw [List.mem_singleton] at hnew
        rw [hnew]
        exact le_max_left 1 qtyReq
    · rename_i ci0 hfind
      dsimp only
      split
      · exact h
      · intro ci hci
        rcases List.mem_map.mp hci with ⟨a, ha, rfl⟩
        by_cases hid : (a.id == ci0.id) = true
        · simp only [hid, if_true]
          calc (1 : Nat) ≤ max 1 qtyReq := le_max_left 1 qtyReq
            _ ≤ ci0.quantity + max 1 qtyReq := Nat.le_add_left _ _
        · simp only [hid, if_false]
          exact h a ha

theorem add_to_cart_pos (s : StoreState) (cartId pid qtyReq : Nat)
    (sz : Option Nat) (h : cartQuantitiesPos s) :
    cartQuantitiesPos (add_to_cart s cartId pid sz qtyReq).1 := by
  unfold add_to_cart
  split
  · exact h
  · split
    · split
      · exact h
      · split
        · exact h
        · split
          · exact h
          · exact addWithAvail_pos _ _ _ _ _ _ h
    · split
      · exact h
      · exact addWithAvail_pos _ _ _ _ _ _ h

theorem remove_from_cart_pos (s : StoreState) (item_id : Nat)
    (h : cartQuantitiesPos s) :
    cartQuantitiesPos (remove_from_cart s item_id) := by
  intro ci hci
  exact h ci (List.mem_filter.mp hci).1

theorem ite_gt_eq_min (a b : Nat) : (if a > b then b else a) = min a b := by
  by_cases hab : a ≤ b
  · rw [if_neg (by omega), Nat.min_eq_left hab]
  · rw [if_pos (by omega), Nat.min_eq_right (by omega)]

theorem add_to_cart_merge_length (s : StoreState) (cartId pid qtyReq : Nat)
    (sz : Option Nat) (ci : CartItemR)
    (hfound : findCartItem s cartId pid sz = some ci)
    (hok : (add_to_cart s cartId pid sz qtyReq).2 = true) :
    (add_to_cart s cartId pid sz qtyReq).1.cartItems.length =
      s.cartItems.length := by
  unfold add_to_cart at hok ⊢
  dsimp only at hok ⊢
  split at hok
  · exact absurd hok (by simp)
  · split at hok
    · split at hok
      · exact absurd hok (by simp)
      · split at hok
        · exact absurd hok (by simp)
        · unfold addWithAvail at hok ⊢
          rw [hfound] at hok ⊢
          dsimp only at hok ⊢
          split at hok
          · exact absurd hok (by simp)
          · rename_i h1
            split at hok
            · exact absurd hok (by simp)
            · rename_i h2
              split at hok
              · exact absurd hok (by simp)
              · rename_i h3
                rw [if_neg h1, if_neg h2, if_neg h3]
                show (updCartItem s ci.id _).cartItems.length = _
                unfold updCartItem
                exact List.length_map _ _
    · split at hok
      · exact absurd hok (by simp)
      · rename_i h0
        unfold addWithAvail at hok ⊢
        rw [hfound] at hok ⊢
        dsimp only at hok ⊢
        rw [if_neg h0]
        split at hok
        · exact absurd hok (by simp)
        · rename_i h1
          split at hok
          · exact absurd hok (by simp)
          · rename_i h2
            rw [if_neg h1, if_neg h2]
            show (updCartItem s ci.id _).cartItems.length = _
            unfold updCartItem
            exact List.length_map _ _

theorem update_cart_sized_char (s : StoreState) (item_id qtyReq : Nat)
    (ci : CartItemR) (szId : Nat) (ps : ProductSizeR)
    (hci : findCartItemById s item_id = some ci) (hsz : ci.size = some szId)
    (hps : findPS s ci.product szId = some ps) :
    findCartItemById (update_cart s item_id qtyReq).1 item_id =
      some { ci with quantity := min (max 1 qtyReq) ps.stock } := by
  have hid : ci.id = item_id := by
    have h2 : s.cartItems.find? (fun c => c.id == item_id) = some ci := hci
    have h3 := List.find?_some h2
    simpa using h3
  unfold update_cart
  rw [hci]
  dsimp only
  rw [hsz]
  dsimp only
  rw [hps]
  dsimp only
  show findCartItemById (updCartItem s item_id _) item_id = _
  unfold findCartItemById updCartItem
  dsimp only
  rw [find_update_pos (fun c => c.id == item_id)
    (fun c => { c with
      quantity := if max 1 qtyReq > ps.stock then ps.stock else max 1 qtyReq })
    (fun a => rfl) s.cartItems]
  have h2 : s.cartItems.find? (fun c => c.id == item_id) = some ci := hci
  rw [h2, Option.map_some', ite_gt_eq_min, hsz]

/-! ### Claim theorems -/

/-- C1 counterexample: for the product with no size partitioning and
stock 5, the first `checkout` for quantity 5 succeeds and leaves stock
0; but a subsequent `checkout` for quantity 1 also succeeds (the
reserve step clamps at zero and never fails), instead of failing with
`InsufficientStock` and performing no mutation as the claim states. -/
theorem C1_counterexample :
    (checkout stateA 9 1 none PaymentMethod.cash_on_delivery 0).2 =
      CheckoutRes.ok 1 ∧
    findProduct (checkout stateA 9 1 none PaymentMethod.cash_on_delivery 0).1 1 =
      some { id := 1, name := "P", price := 500, stock := 0 } ∧
    (checkout (checkout stateA 9 1 none PaymentMethod.cash_on_delivery 0).1
        9 2 none PaymentMethod.cash_on_delivery 0).2 = CheckoutRes.ok 2 ∧
    findProduct
      (checkout (checkout stateA 9 1 none PaymentMethod.cash_on_delivery 0).1
        9 2 none PaymentMethod.cash_on_delivery 0).1 1 =
      some { id := 1, name := "P", price := 500, stock := 0 } :=
  ⟨rfl, rfl, rfl, rfl⟩

/-- C2 counterexample: cancelling an order whose only line was reserved
from size partition (product 1, size 2) does not restore that size
partition (it stays at 3); the release instead goes to the aggregate
`Product.stock` (10 becomes 12), so the release is not size-aware as
the claim states. -/
theorem C2_counterexample :
    (cancel_order stateB 5 7).2 = true ∧
    (findOrder (cancel_order stateB 5 7).1 7).map OrderR.status =
      some OrderStatus.cancelled ∧
    findPS (cancel_order stateB 5 7).1 1 2 =
      some { product := 1, size := 2, stock := 3 } ∧
    findProduct (cancel_order stateB 5 7).1 1 =
      some { id := 1, name := "P", price := 500, stock := 12 } :=
  ⟨rfl, rfl, rfl, rfl⟩

/-- C3: when `verify_payment` itself returns an error, the
`khalti_callback` branch cancels the order with reason
"Payment verification error" but — unlike every other cancellation
branch — releases no inventory: product 1, with 2 reserved units and
remaining stock 0, still has stock 0 afterwards rather than 2. -/
theorem C3_verification_error_releases_nothing :
    (findOrder (khalti_callback stateC 7 "Completed" KhaltiVerification.failure) 7).map
      OrderR.status = some OrderStatus.cancelled ∧
    (findOrder (khalti_callback stateC 7 "Completed" KhaltiVerification.failure) 7).map
      OrderR.cancellation_reason = some (some "Payment verification error") ∧
    findProduct (khalti_callback stateC 7 "Completed" KhaltiVerification.failure) 1 =
      some { id := 1, name := "P", price := 500, stock := 0 } :=
  ⟨rfl, rfl, rfl⟩

/-- C4 counterexample: an order created through checkout and cancelled
by the customer 10 minutes later (a terminal status) is moved back to
`processing` by `khalti_callback` when the pending payment session
completes with a successful, amount-matching verification — so an
operation does move an order out of a terminal status. -/
theorem C4_counterexample :
    (findOrder stateD2 1).map OrderR.status = some OrderStatus.cancelled ∧
    (findOrder (khalti_callback stateD2 1 "Completed"
        (KhaltiVerification.success { status := "Completed", total_amount := 100000 }))
      1).map OrderR.status = some OrderStatus.processing :=
  ⟨rfl, rfl⟩

/-- C1 (amended): the reserve step of order creation never fails and
performs no availability check: `checkout` on a single no-size cart
line always succeeds and decrements the aggregate stock by the
quantity, truncating at zero (`stock - qty` on `Nat`), even when the
quantity exceeds the available stock. -/
theorem C1_reserve_clamps :
    ∀ (s : StoreState) (uid cartId ciid pid qty now : Nat) (pm : PaymentMethod)
      (p : ProductR),
      findProduct s pid = some p →
      cartItemsOf s cartId =
        [{ id := ciid, cart := cartId, product := pid, size := none, quantity := qty }] →
      (checkout s uid cartId none pm now).2 = CheckoutRes.ok s.nextOrderId ∧
      findProduct (checkout s uid cartId none pm now).1 pid =
        some { p with stock := p.stock - qty } := by
  intro s uid cartId ciid pid qty now pm p hp hcart
  have hp2 : s.products.find? (fun q => q.id == pid) = some p := hp
  have hid : p.id = pid := by
    have h3 := List.find?_some hp2
    simpa using h3
  rw [checkout_single_nosize s uid cartId ciid pid qty now pm p hp hcart]
  refine ⟨rfl, ?_⟩
  show (s.products.map
    (fun q => if q.id == p.id then { q with stock := q.stock - qty } else q)).find?
      (fun q => q.id == pid) = _
  rw [hid]
  rw [find_update_pos (fun q => q.id == pid)
    (fun q => { q with stock := q.stock - qty }) (fun a => rfl) s.products]
  rw [hp2]
  simp [hid]

/-- C1 witness: in `stateA` (stock 5), checkout of cart 2 (quantity 1)
right after the stock has been taken down to 0 still succeeds, and the
clamped stock stays 0 = 0 - 1 on `Nat`. -/
theorem C1_reserve_clamps_witness :
    (checkout (checkout stateA 9 1 none PaymentMethod.cash_on_delivery 0).1
        9 2 none PaymentMethod.cash_on_delivery 0).2 = CheckoutRes.ok 2 ∧
    findProduct (checkout (checkout stateA 9 1 none PaymentMethod.cash_on_delivery 0).1
        9 2 none PaymentMethod.cash_on_delivery 0).1 1 =
      some { id := 1, name := "P", price := 500, stock := 0 - 1 } :=
  C1_reserve_clamps (checkout stateA 9 1 none PaymentMethod.cash_on_delivery 0).1
    9 2 11 1 1 0 PaymentMethod.cash_on_delivery
    { id := 1, name := "P", price := 500, stock := 0 } rfl rfl

/-- C5: order and line snapshots are frozen at creation: after checkout
of a single no-size cart line, saving any product with any new price
leaves the created order's snapshot item list (product name and unit
price copied from the product at creation time) and its total amount
unchanged. -/
theorem C5_snapshots_frozen :
    ∀ (s : StoreState) (uid cartId ciid pid qty now pid2 np : Nat)
      (pm : PaymentMethod) (p : ProductR),
      findProduct s pid = some p →
      cartItemsOf s cartId =
        [{ id := ciid, cart := cartId, product := pid, size := none, quantity := qty }] →
      itemsOfOrder s s.nextOrderId = [] →
      findOrder s s.nextOrderId = none →
      (itemsOfOrder (product_save_price (checkout s uid cartId none pm now).1 pid2 np)
          s.nextOrderId =
        [{ order := s.nextOrderId, product := some p.id, product_name := p.name,
           size := none, size_name := "", price := p.price, quantity := qty }] ∧
       (findOrder (product_save_price (checkout s uid cartId none pm now).1 pid2 np)
           s.nextOrderId).map OrderR.total_amount = some (p.price * qty) ∧
       itemsOfOrder (product_save_price (checkout s uid cartId none pm now).1 pid2 np)
           s.nextOrderId =
         itemsOfOrder (checkout s uid cartId none pm now).1 s.nextOrderId ∧
       findOrder (product_save_price (checkout s uid cartId none pm now).1 pid2 np)
           s.nextOrderId =
         findOrder (checkout s uid cartId none pm now).1 s.nextOrderId) := by
  intro s uid cartId ciid pid qty now pid2 np pm p hp hcart hfresh hnone
  have hfresh2 : s.orderItems.filter (fun it => it.order == s.nextOrderId) = [] :=
    hfresh
  have hnone2 : s.orders.find? (fun o => o.id == s.nextOrderId) = none := hnone
  rw [checkout_single_nosize s uid cartId ciid pid qty now pm p hp hcart]
  dsimp only
  have hitems : itemsOfOrder
      (product_save_price
        ({ products := s.products.map
             (fun q => if q.id == p.id then { q with stock := q.stock - qty } else q),
           sizes := s.sizes,
           productSizes := s.productSizes,
           cartItems := s.cartItems.filter (fun ci => ci.cart != cartId),
           orders := s.orders ++
             [{ id := s.nextOrderId, user := some uid,
                total_amount := 0 + p.price * qty,
                status := OrderStatus.pending, payment_method := pm,
                payment_status := false, cancellation_reason := none,
                is_received := false, received_at := none, created_at := now }],
           orderItems := s.orderItems ++
             [{ order := s.nextOrderId, product := some p.id,
                product_name := p.name, size := none, size_name := "",
                price := p.price, quantity := qty }],
           nextOrderId := s.nextOrderId + 1,
           nextCartItemId := s.nextCartItemId } : StoreState) pid2 np)
      s.nextOrderId =
      [{ order := s.nextOrderId, product := some p.id, product_name := p.name,
         size := none, size_name := "", price := p.price, quantity := qty }] := by
    unfold product_save_price updProduct itemsOfOrder
    dsimp only
    rw [List.filter_append, hfresh2]
    simp
  have horder : findOrder
      (product_save_price
        ({ products := s.products.map
             (fun q => if q.id == p.id then { q with stock := q.stock - qty } else q),
           sizes := s.sizes,
           productSizes := s.productSizes,
           cartItems := s.cartItems.filter (fun ci => ci.cart != cartId),
           orders := s.orders ++
             [{ id := s.nextOrderId, user := some uid,
                total_amount := 0 + p.price * qty,
                status := OrderStatus.pending, payment_method := pm,
                payment_status := false, cancellation_reason := none,
                is_received := false, received_at := none, created_at := now }],
           orderItems := s.orderItems ++
             [{ order := s.nextOrderId, product := some p.id,
                product_name := p.name, size := none, size_name := "",
                price := p.price, quantity := qty }],
           nextOrderId := s.nextOrderId + 1,
           nextCartItemId := s.nextCartItemId } : StoreState) pid2 np)
      s.nextOrderId =
      some { id := s.nextOrderId, user := some uid,
             total_amount := 0 + p.price * qty,
             status := OrderStatus.pending, payment_method := pm,
             payment_status := false, cancellation_reason := none,
             is_received := false, received_at := none, created_at := now } := by
    unfold product_save_price updProduct findOrder
    dsimp only
    rw [find_append_right _ _ _ hnone2 (by simp)]
  refine ⟨hitems, ?_, rfl, rfl⟩
  rw [horder]
  simp

/-- C5 witness: in `stateA`, after checkout of cart 1 and a later price
change of product 1 to 999, the order's snapshot item still records
name "P" and unit price 500, and the total is still 2500. -/
theorem C5_snapshots_frozen_witness :
    itemsOfOrder (product_save_price
        (checkout stateA 9 1 none PaymentMethod.cash_on_delivery 0).1 1 999) 1 =
      [{ order := 1, product := some 1, product_name := "P",
         size := none, size_name := "", price := 500, quantity := 5 }] ∧
    (findOrder (product_save_price
        (checkout stateA 9 1 none PaymentMethod.cash_on_delivery 0).1 1 999) 1).map
      OrderR.total_amount = some 2500 :=
  have h := C5_snapshots_frozen stateA 9 1 10 1 5 0 1 999
    PaymentMethod.cash_on_delivery
    { id := 1, name := "P", price := 500, stock := 5 } rfl rfl rfl rfl
  ⟨h.1, h.2.1⟩

/-- C10: checkout from a buy-now session selection never touches the
cart's lines (no `CartItem` is added, removed or modified, whatever the
outcome); the cart's lines are deleted exactly when a successful order
was created from the cart itself. -/
theorem C10_buy_now_frame :
    ∀ (s : StoreState) (uid cartId now oid : Nat) (pm : PaymentMethod) (l : Line),
      (checkout s uid cartId (some l) pm now).1.cartItems = s.cartItems ∧
      ((checkout s uid cartId none pm now).2 = CheckoutRes.ok oid →
        (checkout s uid cartId none pm now).1.cartItems =
          s.cartItems.filter (fun ci => ci.cart != cartId)) := by
  intro s uid cartId now oid pm l
  constructor
  · unfold checkout
    dsimp only
    split
    · rfl
    · split
      · rfl
      · rename_i total htot
        split
        · rename_i s1 e heq
          exact (processLines_frame_eq _ _ _ _ _ heq).1
        · rename_i s1 heq
          exact (processLines_frame_eq _ _ _ _ _ heq).1
  · intro hok
    unfold checkout at hok ⊢
    dsimp only at hok ⊢
    split at hok
    · exact absurd hok (by simp)
    · rename_i hne
      split at hok
      · exact absurd hok (by simp)
      · rename_i total htot
        split at hok
        · exact absurd hok (by simp)
        · rename_i s1 heq
          rw [if_neg hne]
          show s1.cartItems.filter (fun ci => ci.cart != cartId) = _
          rw [(processLines_frame_eq _ _ _ _ _ heq).1]

/-- C10 witness: checkout of cart 1 in `stateA` succeeds and removes
exactly cart 1's lines, keeping cart 2's line. -/
theorem C10_buy_now_frame_witness :
    (checkout stateA 9 1 none PaymentMethod.cash_on_delivery 0).1.cartItems =
      stateA.cartItems.filter (fun ci => ci.cart != 1) :=
  (C10_buy_now_frame stateA 9 1 0 1 PaymentMethod.cash_on_delivery
    { product_id := 1, size_id := none, quantity := 1 }).2 rfl

/-- C2 (amended): cancelling an eligible order releases each line's
quantity exactly once — but always to the product's aggregate
`Product.stock` counter, regardless of size (the size partition is
left untouched, see the counterexample); a second cancellation of the
same order is rejected without touching the state, and a hard delete
after cancellation releases nothing further. -/
theorem C2_release_aggregate_exactly_once :
    ∀ (s : StoreState) (now now2 oid : Nat) (o : OrderR),
      findOrder s oid = some o →
      can_cancel now o = true →
      ((cancel_order s now oid).2 = true ∧
       (cancel_order s now oid).1.productSizes = s.productSizes ∧
       (∀ (pid : Nat) (p : ProductR), findProduct s pid = some p →
         findProduct (cancel_order s now oid).1 pid =
           some { p with stock := p.stock + qtySum pid (itemsOfOrder s oid) }) ∧
       cancel_order (cancel_order s now oid).1 now2 oid =
         ((cancel_order s now oid).1, false) ∧
       (hardDeleteOrder (cancel_order s now oid).1 oid).products =
         (cancel_order s now oid).1.products) := by
  intro s now now2 oid o h hcc
  have hco : cancel_order s now oid =
      (restoreItems (updOrder s oid (fun o2 =>
        { o2 with status := OrderStatus.cancelled,
                  cancellation_reason := some "Cancelled by user" }))
        (itemsOfOrder (updOrder s oid (fun o2 =>
          { o2 with status := OrderStatus.cancelled,
                    cancellation_reason := some "Cancelled by user" })) oid),
       true) := by
    unfold cancel_order
    rw [h]
    simp [hcc]
  have hfo : findOrder (cancel_order s now oid).1 oid =
      some { o with status := OrderStatus.cancelled,
                    cancellation_reason := some "Cancelled by user" } := by
    rw [hco]
    show findOrder (restoreItems _ _) oid = _
    unfold findOrder
    rw [(restoreItems_frame _ _).1]
    show (updOrder s oid _).orders.find? _ = _
    have h2 := findOrder_updOrder_self s oid (fun o2 =>
      { o2 with status := OrderStatus.cancelled,
                cancellation_reason := some "Cancelled by user" }) (fun o2 => rfl)
    unfold findOrder at h2
    rw [h2]
    unfold findOrder at h
    rw [h]
    rfl
  refine ⟨by rw [hco], ?_, ?_, ?_, ?_⟩
  · rw [hco]
    show (restoreItems _ _).productSizes = s.productSizes
    rw [(restoreItems_frame _ _).2.2.2]
    rfl
  · intro pid p hp
    rw [hco]
    show findProduct (restoreItems _ _) pid = _
    have hp1 : findProduct (updOrder s oid (fun o2 =>
        { o2 with status := OrderStatus.cancelled,
                  cancellation_reason := some "Cancelled by user" })) pid = some p := hp
    exact restoreItems_stock _ _ pid p hp1
  · generalize hR : (cancel_order s now oid).1 = R at hfo ⊢
    unfold cancel_order
    rw [hfo]
    simp [can_cancel]
  · generalize hR : (cancel_order s now oid).1 = R at hfo ⊢
    unfold hardDeleteOrder
    rw [hfo]
    simp

/-- C2 witness: cancelling the eligible order of `stateB` succeeds,
adds its line quantity (2) to the aggregate stock of product 1, and the
second cancellation is rejected without change. -/
theorem C2_witness :
    (cancel_order stateB 5 7).2 = true ∧
    findProduct (cancel_order stateB 5 7).1 1 =
      some { id := 1, name := "P", price := 500,
             stock := 10 + qtySum 1 (itemsOfOrder stateB 7) } ∧
    cancel_order (cancel_order stateB 5 7).1 6 7 = ((cancel_order stateB 5 7).1, false) :=
  have h := C2_release_aggregate_exactly_once stateB 5 6 7
    { id := 7, user := some 1, total_amount := 1000,
      status := OrderStatus.pending,
      payment_method := PaymentMethod.cash_on_delivery,
      payment_status := false, cancellation_reason := none,
      is_received := false, received_at := none, created_at := 0 }
    rfl rfl
  ⟨h.1, h.2.2.1 1 { id := 1, name := "P", price := 500, stock := 10 } rfl,
   h.2.2.2.1⟩

/-- C9: `mark_as_paid` writes only the payment flag: it preserves the
status field, is a no-op on an order whose flag is already set, is
idempotent, and the guarded `payment_received` branch of
`admin_order_detail` likewise never changes any order's status. -/
theorem C9_mark_paid_idempotent_status_preserving :
    ∀ o : OrderR,
      (mark_as_paid o).status = o.status ∧
      (mark_as_paid o).payment_status = true ∧
      (o.payment_status = true → mark_as_paid o = o) ∧
      mark_as_paid (mark_as_paid o) = mark_as_paid o ∧
      ∀ (s : StoreState) (oid : Nat),
        (payment_received s oid).1.orders.map OrderR.status =
          s.orders.map OrderR.status := by
  intro o
  refine ⟨rfl, rfl, ?_, rfl, ?_⟩
  · intro h
    cases o
    simp_all [mark_as_paid]
  · intro s oid
    unfold payment_received
    split
    · rfl
    · split
      · simp only [updOrder]
        rw [List.map_map]
        apply List.map_congr_left
        intro a _
        by_cases ha : a.id == oid <;> simp [ha, Function.comp]
      · rfl

/-- C9 witness: applying `mark_as_paid` to an already-paid shipped
order record is a no-op, and its status is preserved. -/
theorem C9_witness :
    mark_as_paid
      { id := 3, user := some 1, total_amount := 700,
        status := OrderStatus.shipped,
        payment_method := PaymentMethod.khalti,
        payment_status := true, cancellation_reason := none,
        is_received := false, received_at := none, created_at := 0 } =
      { id := 3, user := some 1, total_amount := 700,
        status := OrderStatus.shipped,
        payment_method := PaymentMethod.khalti,
        payment_status := true, cancellation_reason := none,
        is_received := false, received_at := none, created_at := 0 } :=
  (C9_mark_paid_idempotent_status_preserving
    { id := 3, user := some 1, total_amount := 700,
      status := OrderStatus.shipped,
      payment_method := PaymentMethod.khalti,
      payment_status := true, cancellation_reason := none,
      is_received := false, received_at := none, created_at := 0 }).2.2.1 rfl

/-- C6: `Order.can_cancel` holds exactly when at most 30 minutes have
elapsed since creation and the status is none of shipped, delivered,
cancelled; and a `cancel_order` attempt on an order that fails this
check changes nothing (order and stock untouched). -/
theorem C6_cancellation_window :
    ∀ (s : StoreState) (now oid : Nat) (o : OrderR),
      findOrder s oid = some o →
      o.created_at ≤ now →
      ((can_cancel now o = true ↔
        (now - o.created_at ≤ 30 ∧ o.status ≠ OrderStatus.shipped ∧
         o.status ≠ OrderStatus.delivered ∧ o.status ≠ OrderStatus.cancelled)) ∧
       (can_cancel now o = false → cancel_order s now oid = (s, false))) := by
  intro s now oid o h hle
  constructor
  · cases hst : o.status <;> simp [can_cancel, hst]
  · intro hf
    unfold cancel_order
    rw [h]
    simp [hf]

/-- C6 witness: the order of `stateB` is pending and was created at
minute 0; the customer cancel attempt at minute 40 changes nothing. -/
theorem C6_witness :
    cancel_order stateB 40 7 = (stateB, false) :=
  (C6_cancellation_window stateB 40 7
    { id := 7, user := some 1, total_amount := 1000,
      status := OrderStatus.pending,
      payment_method := PaymentMethod.cash_on_delivery,
      payment_status := false, cancellation_reason := none,
      is_received := false, received_at := none, created_at := 0 }
    rfl (by decide)).2 rfl

/-- C8: `confirm_order_receipt` succeeds exactly when the order is
delivered and not yet received; on success it sets the flag and the
timestamp, and a second call is rejected leaving the state — flag and
timestamp included — unchanged. -/
theorem C8_confirm_receipt :
    ∀ (s : StoreState) (now now2 oid : Nat) (o : OrderR),
      findOrder s oid = some o →
      (((confirm_order_receipt s now oid).2 = true ↔
          o.status = OrderStatus.delivered ∧ o.is_received = false) ∧
       (o.status = OrderStatus.delivered → o.is_received = false →
        findOrder (confirm_order_receipt s now oid).1 oid =
          some { o with is_received := true, received_at := some now } ∧
        confirm_order_receipt (confirm_order_receipt s now oid).1 now2 oid =
          ((confirm_order_receipt s now oid).1, false))) := by
  intro s now now2 oid o h
  constructor
  · unfold confirm_order_receipt
    rw [h]
    by_cases h1 : o.status = OrderStatus.delivered <;>
      by_cases h2 : o.is_received <;> simp [h1, h2]
  · intro hst hrec
    have hcond : (confirm_order_receipt s now oid) =
        (updOrder s oid (fun o2 =>
          { o2 with is_received := true, received_at := some now }), true) := by
      unfold confirm_order_receipt
      rw [h]
      simp [hst, hrec]
    have hfind : findOrder (confirm_order_receipt s now oid).1 oid =
        some { o with is_received := true, received_at := some now } := by
      rw [hcond]
      rw [findOrder_updOrder_self s oid (fun o2 =>
        { o2 with is_received := true, received_at := some now }) (fun o2 => rfl), h]
      rfl
    refine ⟨hfind, ?_⟩
    generalize hgen : (confirm_order_receipt s now oid).1 = s1 at hfind ⊢
    unfold confirm_order_receipt
    rw [hfind]
    simp

/-- C8 witness: the delivered, unreceived order of `stateF` is
confirmed at minute 50; the second call at minute 60 is rejected and
changes nothing. -/
theorem C8_witness :
    findOrder (confirm_order_receipt stateF 50 3).1 3 =
      some { id := 3, user := some 1, total_amount := 700,
             status := OrderStatus.delivered,
             payment_method := PaymentMethod.cash_on_delivery,
             payment_status := false, cancellation_reason := none,
             is_received := true, received_at := some 50, created_at := 0 } ∧
    confirm_order_receipt (confirm_order_receipt stateF 50 3).1 60 3 =
      ((confirm_order_receipt stateF 50 3).1, false) :=
  (C8_confirm_receipt stateF 50 60 3
    { id := 3, user := some 1, total_amount := 700,
      status := OrderStatus.delivered,
      payment_method := PaymentMethod.cash_on_delivery,
      payment_status := false, cancellation_reason := none,
      is_received := false, received_at := none, created_at := 0 }
    rfl).2 rfl rfl

/-- C4 (amended): the admin status-change endpoint rejects every
transition request out of a terminal status (delivered or cancelled)
and leaves the state unchanged, and the bulk cancel action skips
terminal orders entirely; only the payment callback can move an order
out of a terminal status (see the counterexample). -/
theorem C4_admin_terminal_rejected :
    ∀ (s : StoreState) (oid : Nat) (o : OrderR) (new_status : OrderStatus),
      findOrder s oid = some o →
      (o.status = OrderStatus.delivered ∨ o.status = OrderStatus.cancelled) →
      admin_transition s oid new_status = (s, false) ∧
      mark_as_cancelled s oid = s := by
  intro s oid o ns h hterm
  constructor
  · unfold admin_transition
    rw [h]
    rcases hterm with h1 | h1 <;> simp [h1, valid_transitions]
  · unfold mark_as_cancelled
    rw [h]
    rcases hterm with h1 | h1 <;> simp [h1]

/-- C4 witness: the delivered order of `stateF` cannot be moved to
pending by the admin endpoint, and the bulk cancel action skips it. -/
theorem C4_witness :
    admin_transition stateF 3 OrderStatus.pending = (stateF, false) ∧
    mark_as_cancelled stateF 3 = stateF :=
  C4_admin_terminal_rejected stateF 3
    { id := 3, user := some 1, total_amount := 700,
      status := OrderStatus.delivered,
      payment_method := PaymentMethod.cash_on_delivery,
      payment_status := false, cancellation_reason := none,
      is_received := false, received_at := none, created_at := 0 }
    OrderStatus.pending rfl (Or.inl rfl)

/-- C7 (amended): the (cart, product, size) uniqueness invariant is
preserved by every cart operation and re-adding an existing combination
merges into the existing line (adding `max 1 requested` to its
quantity) without creating a new line; quantity ≥ 1 is preserved by add
and remove, but a quantity update writes
`min (max 1 requested) available` — which is 0 when the available stock
is 0 (see the counterexample). -/
theorem C7_cart_invariants :
    ∀ (s : StoreState) (cartId pid item_id qtyReq : Nat) (sz : Option Nat),
      cartKeysUnique s →
      (cartKeysUnique (add_to_cart s cartId pid sz qtyReq).1 ∧
       cartKeysUnique (update_cart s item_id qtyReq).1 ∧
       cartKeysUnique (remove_from_cart s item_id) ∧
       (cartQuantitiesPos s →
         cartQuantitiesPos (add_to_cart s cartId pid sz qtyReq).1 ∧
         cartQuantitiesPos (remove_from_cart s item_id)) ∧
       (∀ ci : CartItemR, findCartItem s cartId pid sz = some ci →
         (add_to_cart s cartId pid sz qtyReq).2 = true →
         (add_to_cart s cartId pid sz qtyReq).1.cartItems.length =
           s.cartItems.length) ∧
       (∀ (ci : CartItemR) (szId : Nat) (ps : ProductSizeR),
         findCartItemById s item_id = some ci → ci.size = some szId →
         findPS s ci.product szId = some ps →
         findCartItemById (update_cart s item_id qtyReq).1 item_id =
           some { ci with quantity := min (max 1 qtyReq) ps.stock })) := by
  intro s cartId pid item_id qtyReq sz h
  exact ⟨add_to_cart_unique s cartId pid qtyReq sz h,
         update_cart_unique s item_id qtyReq h,
         remove_from_cart_unique s item_id h,
         fun hp => ⟨add_to_cart_pos s cartId pid qtyReq sz hp,
                    remove_from_cart_pos s item_id hp⟩,
         fun ci hf hok => add_to_cart_merge_length s cartId pid qtyReq sz ci hf hok,
         fun ci szId ps hci hsz hps =>
           update_cart_sized_char s item_id qtyReq ci szId ps hci hsz hps⟩

/-- C7 witness: in `stateE` the invariants hold after an add, and the
quantity update of line 5 (size partition stock 0) writes
`min (max 1 5) 0 = 0`. -/
theorem C7_cart_invariants_witness :
    cartKeysUnique (add_to_cart stateE 1 1 (some 2) 3).1 ∧
    findCartItemById (update_cart stateE 5 5).1 5 =
      some { id := 5, cart := 1, product := 1, size := some 2,
             quantity := min (max 1 5) 0 } :=
  have h := C7_cart_invariants stateE 1 1 5 5 (some 2)
    (by simp [cartKeysUnique, stateE])
  ⟨h.1, h.2.2.2.2.2
     { id := 5, cart := 1, product := 1, size := some 2, quantity := 2 }
     2 { product := 1, size := 2, stock := 0 } rfl rfl rfl⟩

/-- C7 counterexample: updating the quantity of a cart line whose size
partition is sold out (available stock 0) clamps the quantity to 0 and
saves it, violating the claimed invariant that every line keeps
quantity ≥ 1 after a quantity update with clamping. -/
theorem C7_counterexample :
    (update_cart stateE 5 5).2 = true ∧
    findCartItemById (update_cart stateE 5 5).1 5 =
      some { id := 5, cart := 1, product := 1, size := some 2, quantity := 0 } :=
  ⟨rfl, rfl⟩

end FashionHub
